import Mathlib

/-!
Verification of the coordination-and-analytics core of the AI study coach
repository.  The Python source is shallowly embedded: scores, durations and
timestamps become rationals, Python dicts with a fixed shape become
structures, Python dicts used as key/value stores become association lists,
exceptions become `Except`, and `asyncio.sleep` calls are recorded in a log
of slept durations.  Python's `round(x, 2)` (round-half-to-even at two
decimal places) is modelled by `round2`, and Python's stable `list.sort`
by a stable insertion sort `isortLe`.
-/

namespace StudyCoach

/-! ## Python `round(x, 2)`: round half to even at two decimal places -/

/-- Round a rational to the nearest integer, ties to even
(Python's rounding mode for `round`). -/
def rhe (q : ℚ) : ℤ :=
  if q - ⌊q⌋ < 1/2 then ⌊q⌋
  else if 1/2 < q - ⌊q⌋ then ⌊q⌋ + 1
  else if ⌊q⌋ % 2 = 0 then ⌊q⌋ else ⌊q⌋ + 1

/-- Python's `round(x, 2)` on a rational. -/
def round2 (q : ℚ) : ℚ := (rhe (q * 100) : ℚ) / 100

theorem floor_le_rhe (q : ℚ) : ⌊q⌋ ≤ rhe q := by
  unfold rhe
  split_ifs <;> omega

theorem rhe_le_floor_add_one (q : ℚ) : rhe q ≤ ⌊q⌋ + 1 := by
  unfold rhe
  split_ifs <;> omega

/-- If `x < c` for an integer-valued hundredth bound then rounding cannot
push the value above `c`. Stated for the concrete bound 55 used by the
severity thresholds. -/
theorem round2_le_55 {x : ℚ} (h : x < 55) : round2 x ≤ 55 := by
  have hfl : ⌊x * 100⌋ < 5500 := by
    rw [Int.floor_lt]
    push_cast
    linarith
  have h2 := rhe_le_floor_add_one (x * 100)
  unfold round2
  rw [div_le_iff₀ (by norm_num : (0:ℚ) < 100)]
  have : rhe (x * 100) ≤ 5500 := by omega
  calc ((rhe (x * 100) : ℤ) : ℚ) ≤ ((5500 : ℤ) : ℚ) := by exact_mod_cast this
    _ = 55 * 100 := by norm_num

theorem le_55_round2 {x : ℚ} (h : 55 ≤ x) : 55 ≤ round2 x := by
  have hfl : (5500 : ℤ) ≤ ⌊x * 100⌋ := by
    rw [Int.le_floor]
    push_cast
    linarith
  have h2 := floor_le_rhe (x * 100)
  unfold round2
  rw [le_div_iff₀ (by norm_num : (0:ℚ) < 100)]
  have : (5500 : ℤ) ≤ rhe (x * 100) := by omega
  calc (55 : ℚ) * 100 = ((5500 : ℤ) : ℚ) := by norm_num
    _ ≤ ((rhe (x * 100) : ℤ) : ℚ) := by exact_mod_cast this

/-! ## Stable sort (Python `sorted` / `list.sort`)

`isortLe le` is a stable insertion sort: an element may be placed before
another exactly when `le` holds, and ties keep the original order — the
same contract as Python's stable sort. -/

def insertLe (le : α → α → Bool) (x : α) : List α → List α
  | [] => [x]
  | y :: ys => if le x y then x :: y :: ys else y :: insertLe le x ys

def isortLe (le : α → α → Bool) : List α → List α
  | [] => []
  | x :: xs => insertLe le x (isortLe le xs)

theorem mem_insertLe {le : α → α → Bool} {x a : α} {l : List α} :
    a ∈ insertLe le x l ↔ a = x ∨ a ∈ l := by
  induction l with
  | nil => simp [insertLe]
  | cons y ys ih =>
    by_cases h : le x y
    · simp [insertLe, h]
    · simp [insertLe, h, ih]
      tauto

theorem mem_isortLe {le : α → α → Bool} {a : α} {l : List α} :
    a ∈ isortLe le l ↔ a ∈ l := by
  induction l with
  | nil => simp [isortLe]
  | cons x xs ih => simp [isortLe, mem_insertLe, ih]

theorem length_insertLe (le : α → α → Bool) (x : α) (l : List α) :
    (insertLe le x l).length = l.length + 1 := by
  induction l with
  | nil => simp [insertLe]
  | cons y ys ih =>
    by_cases h : le x y <;> simp [insertLe, h, ih]

theorem length_isortLe (le : α → α → Bool) (l : List α) :
    (isortLe le l).length = l.length := by
  induction l with
  | nil => simp [isortLe]
  | cons x xs ih => simp [isortLe, length_insertLe, ih]

theorem pairwise_insertLe {le : α → α → Bool}
    (total : ∀ a b, le a b = true ∨ le b a = true)
    (trans : ∀ a b c, le a b = true → le b c = true → le a c = true)
    {x : α} {l : List α} (h : l.Pairwise (le · · = true)) :
    (insertLe le x l).Pairwise (le · · = true) := by
  induction l with
  | nil => simp [insertLe]
  | cons y ys ih =>
    rcases List.pairwise_cons.mp h with ⟨hy, hys⟩
    by_cases hxy : le x y
    · rw [insertLe, if_pos hxy]
      refine List.pairwise_cons.mpr ⟨?_, h⟩
      intro z hz
      rcases List.mem_cons.mp hz with rfl | hz
      · exact hxy
      · exact trans x y z hxy (hy z hz)
    · rw [insertLe, if_neg hxy]
      refine List.pairwise_cons.mpr ⟨?_, ih hys⟩
      intro z hz
      rcases mem_insertLe.mp hz with rfl | hz
      · rcases total y z with h' | h'
        · exact h'
        · exact absurd h' (by simpa using hxy)
      · exact hy z hz

theorem pairwise_isortLe {le : α → α → Bool}
    (total : ∀ a b, le a b = true ∨ le b a = true)
    (trans : ∀ a b c, le a b = true → le b c = true → le a c = true)
    (l : List α) : (isortLe le l).Pairwise (le · · = true) := by
  induction l with
  | nil => simp [isortLe]
  | cons x xs ih => exact pairwise_insertLe total trans ih

/-! ## Data model (src/src/agents/progress_tracker.py)

A quiz attempt record carries a topic and a score; a study session record
carries a duration and a date.  Dates are modelled as rational numbers of
days, so that Python's `(max(dates) - min(dates)).days` becomes
`⌊max - min⌋`. -/

structure QuizAttempt where
  topic : String
  score : ℚ
deriving Repr, DecidableEq

structure StudySession where
  duration : ℚ
  date : ℚ
deriving Repr, DecidableEq

structure PerformanceMetrics where
  average_score : ℚ
  total_quizzes : Nat
  improvement_rate : ℚ
  highest_score : Option ℚ
  lowest_score : Option ℚ
deriving Repr, DecidableEq

structure EngagementMetrics where
  total_sessions : Nat
  total_study_time : ℚ
  average_session_duration : ℚ
  consistency_score : ℚ
deriving Repr, DecidableEq

structure LearningGap where
  topic : String
  average_score : ℚ
  attempts : Nat
  severity : String
deriving Repr, DecidableEq

/-- `max(scores)` over a Python list, 0 on the empty list. -/
def maxListQ : List ℚ → ℚ
  | [] => 0
  | x :: xs => xs.foldl max x

/-- `min(scores)` over a Python list, 0 on the empty list. -/
def minListQ : List ℚ → ℚ
  | [] => 0
  | x :: xs => xs.foldl min x

/-! ## `ProgressTrackerAgent._calculate_performance_metrics` -/

def calculate_performance_metrics (quiz_history : List QuizAttempt) :
    PerformanceMetrics :=
  if quiz_history.isEmpty then
    { average_score := 0, total_quizzes := 0, improvement_rate := 0,
      highest_score := none, lowest_score := none }
  else
    let scores := quiz_history.map QuizAttempt.score
    let total_quizzes := scores.length
    let average_score : ℚ :=
      if 0 < total_quizzes then scores.sum / total_quizzes else 0
    let improvement_rate : ℚ :=
      if 3 ≤ total_quizzes then
        let recent_avg := (scores.drop (total_quizzes - 3)).sum / 3
        let early_avg := (scores.take 3).sum / 3
        if 0 < early_avg then (recent_avg - early_avg) / early_avg * 100 else 0
      else 0
    { average_score := round2 average_score,
      total_quizzes := total_quizzes,
      improvement_rate := round2 improvement_rate,
      highest_score := some (maxListQ scores),
      lowest_score := some (minListQ scores) }

/-! ## `ProgressTrackerAgent._calculate_engagement_metrics` -/

def calculate_engagement_metrics (study_sessions : List StudySession) :
    EngagementMetrics :=
  if study_sessions.isEmpty then
    { total_sessions := 0, total_study_time := 0,
      average_session_duration := 0, consistency_score := 0 }
  else
    let total_sessions := study_sessions.length
    let total_study_time := (study_sessions.map StudySession.duration).sum
    let average_session_duration : ℚ :=
      if 0 < total_sessions then total_study_time / total_sessions else 0
    let consistency_score : ℚ :=
      if study_sessions.isEmpty then 0
      else
        let dates := study_sessions.map StudySession.date
        let date_range : ℤ := ⌊maxListQ dates - minListQ dates⌋ + 1
        let weeks : ℚ := max ((date_range : ℚ) / 7) 1
        ((total_sessions : ℚ) / weeks) * 10
    { total_sessions := total_sessions,
      total_study_time := total_study_time,
      average_session_duration := round2 average_session_duration,
      consistency_score := min (round2 consistency_score) 100 }

/-! ## `ProgressTrackerAgent._identify_learning_gaps`

Python aggregates scores into `topic_performance`, an insertion-ordered
dict from topic to the list of that topic's scores; `addScore`/`groupByTopic`
reproduce that ordered map as an association list. -/

def addScore : List (String × List ℚ) → String → ℚ → List (String × List ℚ)
  | [], t, s => [(t, [s])]
  | (t', ss) :: rest, t, s =>
    if t' = t then (t', ss ++ [s]) :: rest
    else (t', ss) :: addScore rest t s

def groupByTopic (quiz_history : List QuizAttempt) : List (String × List ℚ) :=
  quiz_history.foldl (fun acc q => addScore acc q.topic q.score) []

def severityOf (avg : ℚ) : String :=
  if avg < 40 then "high" else if avg < 55 then "medium" else "low"

def gapsOfGroups (groups : List (String × List ℚ)) : List LearningGap :=
  groups.filterMap fun g =>
    if g.2.sum / (g.2.length : ℚ) < 60 then
      some ⟨g.1, round2 (g.2.sum / (g.2.length : ℚ)), g.2.length,
            severityOf (g.2.sum / (g.2.length : ℚ))⟩
    else
      none

/-- The comparison realized by
`learning_gaps.sort(key=lambda x: (x['severity'] == 'high', -x['average_score']), reverse=True)`:
`a` may be placed before `b` exactly when `a`'s key is ≥ `b`'s key in the
reversed lexicographic order. -/
def gapLE (a b : LearningGap) : Bool :=
  ((a.severity == "high") && !(b.severity == "high"))
    || (((a.severity == "high") == (b.severity == "high"))
        && decide (a.average_score ≤ b.average_score))

def identify_gaps (quiz_history : List QuizAttempt) : List LearningGap :=
  isortLe gapLE (gapsOfGroups (groupByTopic quiz_history))

/-! ## Properties of the gap classification and ordering -/

theorem severityOf_high {avg : ℚ} : severityOf avg = "high" ↔ avg < 40 := by
  unfold severityOf
  split_ifs with h1 h2
  · exact iff_of_true rfl h1
  · exact iff_of_false (by decide) h1
  · exact iff_of_false (by decide) h1

theorem severityOf_medium {avg : ℚ} :
    severityOf avg = "medium" ↔ 40 ≤ avg ∧ avg < 55 := by
  unfold severityOf
  split_ifs with h1 h2
  · exact iff_of_false (by decide) (fun h => absurd h1 (not_lt.mpr h.1))
  · exact iff_of_true rfl ⟨not_lt.mp h1, h2⟩
  · exact iff_of_false (by decide) (fun h => absurd h.2 h2)

theorem severityOf_low {avg : ℚ} : severityOf avg = "low" ↔ 55 ≤ avg := by
  unfold severityOf
  split_ifs with h1 h2
  · exact iff_of_false (by decide)
      (fun h => absurd h1 (not_lt.mpr (le_trans (by norm_num) h)))
  · exact iff_of_false (by decide) (fun h => absurd h2 (not_lt.mpr h))
  · exact iff_of_true rfl (not_lt.mp h2)

theorem mem_gapsOfGroups {g : LearningGap} {groups : List (String × List ℚ)} :
    g ∈ gapsOfGroups groups ↔
      ∃ p ∈ groups, p.2.sum / (p.2.length : ℚ) < 60 ∧
        g = ⟨p.1, round2 (p.2.sum / (p.2.length : ℚ)), p.2.length,
             severityOf (p.2.sum / (p.2.length : ℚ))⟩ := by
  unfold gapsOfGroups
  rw [List.mem_filterMap]
  constructor
  · rintro ⟨p, hp, hf⟩
    by_cases h : p.2.sum / (p.2.length : ℚ) < 60
    · rw [if_pos h] at hf
      exact ⟨p, hp, h, (Option.some_inj.mp hf).symm⟩
    · rw [if_neg h] at hf
      cases hf
  · rintro ⟨p, hp, h, rfl⟩
    exact ⟨p, hp, by rw [if_pos h]⟩

/-- Severity bounds on the rounded score carried by a produced gap entry:
a "low" entry's rounded average is ≥ 55 and a "medium" entry's is ≤ 55. -/
theorem gap_bounds {g : LearningGap} {groups : List (String × List ℚ)}
    (hg : g ∈ gapsOfGroups groups) :
    (g.severity = "low" → 55 ≤ g.average_score) ∧
    (g.severity = "medium" → g.average_score ≤ 55) := by
  rcases mem_gapsOfGroups.mp hg with ⟨p, _, h60, rfl⟩
  refine ⟨fun hl => ?_, fun hm => ?_⟩
  · exact le_55_round2 (severityOf_low.mp hl)
  · exact round2_le_55 (severityOf_medium.mp hm).2

/-- The proposition decided by the sort comparison `gapLE`. -/
theorem gapLE_iff {a b : LearningGap} :
    gapLE a b = true ↔
      (a.severity = "high" ∧ b.severity ≠ "high")
      ∨ ((a.severity = "high" ↔ b.severity = "high")
          ∧ a.average_score ≤ b.average_score) := by
  unfold gapLE
  by_cases ha : a.severity = "high" <;> by_cases hb : b.severity = "high" <;>
    by_cases hq : a.average_score ≤ b.average_score <;>
      simp [ha, hb, hq]

theorem gapLE_total (a b : LearningGap) : gapLE a b = true ∨ gapLE b a = true := by
  rw [gapLE_iff, gapLE_iff]
  by_cases ha : a.severity = "high" <;> by_cases hb : b.severity = "high" <;>
    rcases le_total a.average_score b.average_score with hq | hq <;> tauto

theorem gapLE_trans (a b c : LearningGap)
    (h1 : gapLE a b = true) (h2 : gapLE b c = true) : gapLE a c = true := by
  rw [gapLE_iff] at h1 h2 ⊢
  rcases h1 with ⟨ha, hb⟩ | ⟨hab, q1⟩ <;> rcases h2 with ⟨hb', hc⟩ | ⟨hbc, q2⟩
  · exact absurd hb' hb
  · exact Or.inl ⟨ha, fun hc => hb (hbc.mpr hc)⟩
  · exact Or.inl ⟨hab.mpr hb', hc⟩
  · exact Or.inr ⟨hab.trans hbc, q1.trans q2⟩

/-! ## Key (topic) uniqueness of the grouping step -/

theorem addScore_keys (acc : List (String × List ℚ)) (t : String) (s : ℚ) :
    (addScore acc t s).map Prod.fst =
      if t ∈ acc.map Prod.fst then acc.map Prod.fst
      else acc.map Prod.fst ++ [t] := by
  induction acc with
  | nil => simp [addScore]
  | cons p rest ih =>
    obtain ⟨t', ss⟩ := p
    by_cases h : t' = t
    · subst h
      simp [addScore]
    · rw [show addScore ((t', ss) :: rest) t s
            = (t', ss) :: addScore rest t s by simp [addScore, h]]
      simp only [List.map_cons, ih]
      by_cases hm : t ∈ rest.map Prod.fst <;>
        simp [hm, List.mem_cons, Ne.symm h]

theorem groupByTopic_keys_nodup (qs : List QuizAttempt) :
    ((groupByTopic qs).map Prod.fst).Nodup := by
  unfold groupByTopic
  suffices h : ∀ acc : List (String × List ℚ), (acc.map Prod.fst).Nodup →
      ((qs.foldl (fun acc q => addScore acc q.topic q.score) acc).map Prod.fst).Nodup from
    h [] (by simp)
  induction qs with
  | nil =>
    intro acc h
    simpa using h
  | cons q qs ih =>
    intro acc h
    rw [List.foldl_cons]
    apply ih
    rw [addScore_keys]
    split_ifs with hm
    · exact h
    · simp [List.nodup_append, h, hm]

/-- The relation along which `identify_gaps` output is actually sorted:
`a` may precede `b` only if `a` is high-severity and `b` is not, or both
are on the same side of the high/non-high divide and `a`'s (rounded)
average score is at most `b`'s. -/
def GapRel (a b : LearningGap) : Prop :=
  (a.severity = "high" ∧ b.severity ≠ "high")
  ∨ ((a.severity = "high" ↔ b.severity = "high")
      ∧ a.average_score ≤ b.average_score)

/-- C1 (amended).  For every collection of quiz attempts the list returned
by `identify_gaps` is ordered so that every "high" entry precedes every
non-"high" entry, and within the "high" tier and within the combined
non-"high" block entries are ordered by ascending (rounded) average score;
consequently a "medium" entry can follow a "low" entry only when both
rounded averages equal exactly 55, where grouping order decides.  The
ordering depends on the input only through the per-topic grouping. -/
theorem identify_gaps_order (qs : List QuizAttempt) :
    (identify_gaps qs).Pairwise GapRel ∧
    (identify_gaps qs).Pairwise (fun a b =>
      a.severity = "low" → b.severity = "medium" →
        a.average_score = 55 ∧ b.average_score = 55) ∧
    (∀ qs' : List QuizAttempt, groupByTopic qs' = groupByTopic qs →
      identify_gaps qs' = identify_gaps qs) := by
  have hp := pairwise_isortLe gapLE_total gapLE_trans (gapsOfGroups (groupByTopic qs))
  refine ⟨hp.imp (fun h => gapLE_iff.mp h), ?_, ?_⟩
  · refine hp.imp_of_mem ?_
    intro a b ha hb hle hlow hmed
    have hb1 := (gap_bounds (mem_isortLe.mp ha)).1 hlow
    have hb2 := (gap_bounds (mem_isortLe.mp hb)).2 hmed
    rcases gapLE_iff.mp hle with ⟨hh, _⟩ | ⟨_, hq⟩
    · rw [hlow] at hh
      exact absurd hh (by decide)
    · constructor <;> linarith
  · intro qs' h
    unfold identify_gaps
    rw [h]

/-- C1 counterexample.  On the attempts `[A: 55, B: 54.996]` topic `A` is a
"low" gap and topic `B` a "medium" gap, but both rounded averages are 55.0,
the sort keys tie, and the stable sort leaves the "low" entry first: the
output is not ordered with every "medium" entry before every "low" one. -/
theorem identify_gaps_order_cex :
    (identify_gaps [⟨"A", 55⟩, ⟨"B", 54996/1000⟩]).map LearningGap.severity
      = ["low", "medium"] ∧
    ¬ (identify_gaps [⟨"A", 55⟩, ⟨"B", 54996/1000⟩]).Pairwise
        (fun a b => a.severity = "low" → b.severity ≠ "medium") := by
  have hlist : identify_gaps [⟨"A", 55⟩, ⟨"B", 54996/1000⟩]
      = [⟨"A", 55, 1, "low"⟩, ⟨"B", 55, 1, "medium"⟩] := by
    norm_num [identify_gaps, groupByTopic, addScore, gapsOfGroups, severityOf,
      isortLe, insertLe, gapLE, round2, rhe, List.filterMap]
    simp
  rw [hlist]
  constructor
  · simp
  · intro h
    rcases List.pairwise_cons.mp h with ⟨h1, _⟩
    exact (h1 ⟨"B", 55, 1, "medium"⟩ (by simp) rfl) rfl

/-- Witness for C1: the theorem applied at a concrete input; two attempt
lists that interleave topics differently but induce the same per-topic
grouping produce the same gap list. -/
theorem identify_gaps_order_witness :
    identify_gaps [⟨"Math", 30⟩, ⟨"Sci", 20⟩, ⟨"Math", 50⟩]
      = identify_gaps [⟨"Math", 30⟩, ⟨"Math", 50⟩, ⟨"Sci", 20⟩] :=
  (identify_gaps_order [⟨"Math", 30⟩, ⟨"Math", 50⟩, ⟨"Sci", 20⟩]).2.2
    [⟨"Math", 30⟩, ⟨"Sci", 20⟩, ⟨"Math", 50⟩]
    (by simp [groupByTopic, addScore])

/-- C2.  A topic yields a gap entry iff its mean score is strictly below
60; the entry's severity is "high" exactly when the mean is < 40, "medium"
exactly when 40 ≤ mean < 55 and "low" exactly when 55 ≤ mean (< 60); the
grouping has no duplicate topics; and on the spec's scenario
`[Physics:45, Physics:52, Math:78, Math:85]` the result is exactly one
gap for Physics with average 48.5 and severity "medium". -/
theorem identify_gaps_criteria (qs : List QuizAttempt) :
    ((groupByTopic qs).map Prod.fst).Nodup ∧
    (∀ g ∈ identify_gaps qs, ∃ ss : List ℚ, (g.topic, ss) ∈ groupByTopic qs ∧
        ss.sum / (ss.length : ℚ) < 60 ∧
        g.average_score = round2 (ss.sum / (ss.length : ℚ)) ∧
        g.attempts = ss.length ∧
        (g.severity = "high" ↔ ss.sum / (ss.length : ℚ) < 40) ∧
        (g.severity = "medium" ↔
          40 ≤ ss.sum / (ss.length : ℚ) ∧ ss.sum / (ss.length : ℚ) < 55) ∧
        (g.severity = "low" ↔ 55 ≤ ss.sum / (ss.length : ℚ))) ∧
    (∀ t (ss : List ℚ), (t, ss) ∈ groupByTopic qs →
        ss.sum / (ss.length : ℚ) < 60 →
        ∃ g ∈ identify_gaps qs, g.topic = t) ∧
    identify_gaps [⟨"Physics", 45⟩, ⟨"Physics", 52⟩, ⟨"Math", 78⟩, ⟨"Math", 85⟩]
      = [⟨"Physics", 97/2, 2, "medium"⟩] := by
  refine ⟨groupByTopic_keys_nodup qs, ?_, ?_, ?_⟩
  · intro g hg
    rcases mem_gapsOfGroups.mp (mem_isortLe.mp hg) with ⟨p, hp, h60, rfl⟩
    exact ⟨p.2, hp, h60, rfl, rfl, severityOf_high, severityOf_medium, severityOf_low⟩
  · intro t ss hmem h60
    refine ⟨⟨t, round2 (ss.sum / (ss.length : ℚ)), ss.length,
             severityOf (ss.sum / (ss.length : ℚ))⟩, ?_, rfl⟩
    exact mem_isortLe.mpr (mem_gapsOfGroups.mpr ⟨(t, ss), hmem, h60, rfl⟩)
  · norm_num [identify_gaps, groupByTopic, addScore, gapsOfGroups, severityOf,
      isortLe, insertLe, gapLE, round2, rhe, List.filterMap]

/-- Witness for C2: the theorem applied at the spec scenario, discharging
the inner membership and threshold hypotheses at the Physics group. -/
theorem identify_gaps_criteria_witness :
    ∃ g ∈ identify_gaps
        [⟨"Physics", 45⟩, ⟨"Physics", 52⟩, ⟨"Math", 78⟩, ⟨"Math", 85⟩],
      g.topic = "Physics" :=
  (identify_gaps_criteria
      [⟨"Physics", 45⟩, ⟨"Physics", 52⟩, ⟨"Math", 78⟩, ⟨"Math", 85⟩]).2.2.1
    "Physics" [45, 52]
    (by simp [groupByTopic, addScore])
    (by norm_num)

theorem round2_zero : round2 0 = 0 := by
  norm_num [round2, rhe]

/-- C5.  `performance_metrics` returns an all-zero/neutral record on empty
input; `average_score` is the mean of the scores rounded to 2 decimals;
`improvement_rate` is 0 with fewer than 3 attempts; with at least 3
attempts it compares the mean of the last 3 scores in input order against
the mean of the first 3, and is 0 when the early mean is 0. -/
theorem performance_metrics_spec (qs : List QuizAttempt) :
    calculate_performance_metrics [] =
      { average_score := 0, total_quizzes := 0, improvement_rate := 0,
        highest_score := none, lowest_score := none } ∧
    (qs ≠ [] → (calculate_performance_metrics qs).average_score
        = round2 ((qs.map QuizAttempt.score).sum / (qs.length : ℚ))) ∧
    (qs.length < 3 → (calculate_performance_metrics qs).improvement_rate = 0) ∧
    (3 ≤ qs.length →
      (calculate_performance_metrics qs).improvement_rate
        = round2 (if 0 < ((qs.map QuizAttempt.score).take 3).sum / 3 then
            (((qs.map QuizAttempt.score).drop (qs.length - 3)).sum / 3
                - ((qs.map QuizAttempt.score).take 3).sum / 3)
              / (((qs.map QuizAttempt.score).take 3).sum / 3) * 100
          else 0) ∧
      (((qs.map QuizAttempt.score).take 3).sum / 3 = 0 →
        (calculate_performance_metrics qs).improvement_rate = 0)) := by
  refine ⟨rfl, ?_, ?_, ?_⟩
  · intro h
    have hne : qs.isEmpty = false := by simpa [List.isEmpty_iff] using h
    have hpos : 0 < qs.length := List.length_pos.mpr h
    simp [calculate_performance_metrics, hne, hpos]
  · intro h3
    by_cases h : qs = []
    · subst h
      rfl
    · have hne : qs.isEmpty = false := by simpa [List.isEmpty_iff] using h
      have hlt : ¬ 3 ≤ qs.length := by omega
      simp [calculate_performance_metrics, hne, hlt, round2_zero]
  · intro h3
    have h : qs ≠ [] := by
      intro e
      subst e
      simp at h3
    have hne : qs.isEmpty = false := by simpa [List.isEmpty_iff] using h
    refine ⟨?_, ?_⟩
    · simp [calculate_performance_metrics, hne, h3]
    · intro he
      simp [calculate_performance_metrics, hne, h3, he, round2_zero]

/-- Witness for C5: the theorem applied at concrete attempt lists.  With
early scores all 0 the improvement rate degrades to 0 instead of dividing
by zero, and with two attempts of 40 and 60 the average is 50. -/
theorem performance_metrics_witness :
    (calculate_performance_metrics
        [⟨"T", 0⟩, ⟨"T", 0⟩, ⟨"T", 0⟩, ⟨"T", 30⟩]).improvement_rate = 0 ∧
    (calculate_performance_metrics [⟨"T", 40⟩, ⟨"T", 60⟩]).average_score = 50 := by
  constructor
  · exact ((performance_metrics_spec
        [⟨"T", 0⟩, ⟨"T", 0⟩, ⟨"T", 0⟩, ⟨"T", 30⟩]).2.2.2 (by simp)).2
      (by norm_num)
  · exact ((performance_metrics_spec [⟨"T", 40⟩, ⟨"T", 60⟩]).2.1
      (by simp)).trans (by norm_num [round2, rhe])

theorem foldl_max_replicate (x : ℚ) (m : ℕ) :
    List.foldl max x (List.replicate m x) = x := by
  induction m with
  | zero => rfl
  | succ m ih => simp [List.replicate_succ, ih]

theorem foldl_min_replicate (x : ℚ) (m : ℕ) :
    List.foldl min x (List.replicate m x) = x := by
  induction m with
  | zero => rfl
  | succ m ih => simp [List.replicate_succ, ih]

theorem maxListQ_replicate (n : ℕ) (x : ℚ) (h : n ≠ 0) :
    maxListQ (List.replicate n x) = x := by
  cases n with
  | zero => exact absurd rfl h
  | succ m => simp [List.replicate_succ, maxListQ, foldl_max_replicate]

theorem minListQ_replicate (n : ℕ) (x : ℚ) (h : n ≠ 0) :
    minListQ (List.replicate n x) = x := by
  cases n with
  | zero => exact absurd rfl h
  | succ m => simp [List.replicate_succ, minListQ, foldl_min_replicate]

/-- C6.  On non-empty input the returned consistency score is the capped,
rounded value of (session_count / max(date_span_in_weeks, 1)) × 10, where
date_span_in_weeks = (⌊max_date − min_date⌋ + 1) / 7; on every input the
returned consistency score is at most 100. -/
theorem engagement_metrics_spec (sessions : List StudySession) :
    (sessions ≠ [] →
      (calculate_engagement_metrics sessions).consistency_score
        = min (round2 ((sessions.length : ℚ)
            / max (((⌊maxListQ (sessions.map StudySession.date)
                      - minListQ (sessions.map StudySession.date)⌋ + 1 : ℤ) : ℚ) / 7) 1
            * 10)) 100) ∧
    (calculate_engagement_metrics sessions).consistency_score ≤ 100 := by
  constructor
  · intro h
    have hne : sessions.isEmpty = false := by simpa [List.isEmpty_iff] using h
    simp [calculate_engagement_metrics, hne]
  · by_cases h : sessions = []
    · subst h
      norm_num [calculate_engagement_metrics]
    · have hne : sessions.isEmpty = false := by simpa [List.isEmpty_iff] using h
      simp only [calculate_engagement_metrics, hne, Bool.false_eq_true, if_false]
      exact min_le_right _ _

/-- Witness for C6: the theorem applied to the pathological input of 100
sessions on the same day; the raw score 1000 is capped to exactly 100. -/
theorem engagement_metrics_witness :
    (calculate_engagement_metrics
        (List.replicate 100 ⟨30, 0⟩)).consistency_score = 100 := by
  have h := (engagement_metrics_spec (List.replicate 100 (⟨30, 0⟩ : StudySession))).1
    (by simp)
  rw [h]
  rw [show (List.replicate 100 (⟨30, 0⟩ : StudySession)).map StudySession.date
      = List.replicate 100 0 from by simp]
  rw [maxListQ_replicate 100 0 (by norm_num), minListQ_replicate 100 0 (by norm_num)]
  norm_num [round2, rhe, max_def, min_def]

/-! ## `DataProcessingAgent.calculate_trends` (src/src/agents/data_processing.py)

Data points carry a timestamp and a value; timestamps are modelled as
rationals (the source compares ISO-8601 timestamp strings
lexicographically, which is order-isomorphic to comparing the times).
The error dictionary `{'error': 'Insufficient data for trend analysis'}`
returned on short input becomes the `Except.error` branch. -/

structure DataPoint where
  timestamp : ℚ
  value : ℚ
deriving Repr, DecidableEq

structure TrendResult where
  direction : String
  absolute_change : ℚ
  percent_change : ℚ
  data_points : Nat
deriving Repr, DecidableEq

def insufficientDataMsg : String := "Insufficient data for trend analysis"

def sortByTimestamp (time_series_data : List DataPoint) : List DataPoint :=
  isortLe (fun a b => decide (a.timestamp ≤ b.timestamp)) time_series_data

def calculate_trends (time_series_data : List DataPoint) :
    Except String TrendResult :=
  if time_series_data.length < 2 then
    .error insufficientDataMsg
  else
    let sorted_data := sortByTimestamp time_series_data
    let first_value := (sorted_data.headD ⟨0, 0⟩).value
    let last_value := (sorted_data.getLastD ⟨0, 0⟩).value
    let change := last_value - first_value
    let percent_change : ℚ :=
      if first_value ≠ 0 then change / first_value * 100 else 0
    .ok { direction := if 0 < change then "increasing"
                       else if change < 0 then "decreasing" else "stable",
          absolute_change := change,
          percent_change := round2 percent_change,
          data_points := sorted_data.length }

/-- C3.  With fewer than 2 points the trend computation fails with the
insufficient-data error, which is returned to the direct caller rather
than swallowed or replaced with a default trend. -/
theorem calculate_trends_insufficient (series : List DataPoint)
    (h : series.length < 2) :
    calculate_trends series = .error insufficientDataMsg := by
  unfold calculate_trends
  rw [if_pos h]

/-- Witness for C3: the theorem applied at a one-point series. -/
theorem calculate_trends_insufficient_witness :
    calculate_trends [⟨0, 5⟩] = .error insufficientDataMsg :=
  calculate_trends_insufficient [⟨0, 5⟩] (by simp)

/-- C4.  With at least 2 points the series is sorted ascending by
timestamp and the result is the endpoint delta: absolute_change is last
minus first value, percent_change is change/first × 100 rounded to 2
decimals (0 when the first value is 0), direction is the sign of the
change, and data_points is the series length; on exactly two points with
values 50 and 75 at any increasing timestamps the result is
("increasing", 25, 50.0, 2). -/
theorem calculate_trends_spec (series : List DataPoint) (h2 : 2 ≤ series.length)
    (t1 t2 : ℚ) (ht : t1 < t2) :
    calculate_trends series = .ok
      { direction :=
          if 0 < ((sortByTimestamp series).getLastD ⟨0, 0⟩).value
                - ((sortByTimestamp series).headD ⟨0, 0⟩).value then "increasing"
          else if ((sortByTimestamp series).getLastD ⟨0, 0⟩).value
                - ((sortByTimestamp series).headD ⟨0, 0⟩).value < 0 then "decreasing"
          else "stable",
        absolute_change := ((sortByTimestamp series).getLastD ⟨0, 0⟩).value
          - ((sortByTimestamp series).headD ⟨0, 0⟩).value,
        percent_change := round2
          (if ((sortByTimestamp series).headD ⟨0, 0⟩).value = 0 then 0
           else (((sortByTimestamp series).getLastD ⟨0, 0⟩).value
                  - ((sortByTimestamp series).headD ⟨0, 0⟩).value)
                / ((sortByTimestamp series).headD ⟨0, 0⟩).value * 100),
        data_points := series.length } ∧
    calculate_trends [⟨t1, 50⟩, ⟨t2, 75⟩] = .ok ⟨"increasing", 25, 50, 2⟩ := by
  constructor
  · have hn : ¬ series.length < 2 := not_lt.mpr h2
    have hlen : (sortByTimestamp series).length = series.length :=
      length_isortLe _ _
    by_cases hf : ((sortByTimestamp series).headD ⟨0, 0⟩).value = 0 <;>
      simp [calculate_trends, hn, hf, hlen]
  · have hsort : sortByTimestamp [⟨t1, 50⟩, ⟨t2, 75⟩] = [⟨t1, 50⟩, ⟨t2, 75⟩] := by
      simp [sortByTimestamp, isortLe, insertLe, ht.le]
    norm_num [calculate_trends, hsort, round2, rhe, List.getLastD]

/-- Witness for C4: the theorem applied at a concrete two-point series. -/
theorem calculate_trends_spec_witness :
    calculate_trends [⟨0, 50⟩, ⟨1, 75⟩] = .ok ⟨"increasing", 25, 50, 2⟩ :=
  (calculate_trends_spec [⟨0, 50⟩, ⟨1, 75⟩] (by norm_num) 0 1 (by norm_num)).2

/-! ## `StudyPlannerAgent` (src/src/agents/study_planner.py)

The Gemini call is an external capability: it is modelled as a function
from the attempt index to `Except String String` (the text result or the
raised error).  `asyncio.sleep(2 ** attempt)` is modelled by recording the
slept duration in a list.  `datetime.now() + timedelta(days=i)` is
external; a plan entry stores the day offset `i` in its place. -/

structure StudentProfile where
  name : String
  grade : Nat
  subjects : List String
  weak_topics : List String
  study_hours_per_day : ℚ
deriving Repr, DecidableEq

inductive PlanEntry where
  | generated (content : String) (date_offset : Nat)
  | ruleBased (subject : String) (duration : String) (date_offset : Nat)
deriving Repr, DecidableEq

/-- `_call_gemini`'s retry loop from attempt `attempt` with `fuel` retries
remaining after the current one; on the last attempt (`fuel = 0`) an error
is re-raised, otherwise the loop sleeps `2 ^ attempt` seconds and retries.
Returns the final outcome paired with the list of slept durations. -/
def retryAux (op : ℕ → Except String α) (attempt : ℕ) :
    ℕ → Except String α × List ℕ
  | 0 => (op attempt, [])
  | fuel + 1 =>
    match op attempt with
    | .ok a => (.ok a, [])
    | .error _ =>
      let r := retryAux op (attempt + 1) fuel
      (r.1, 2 ^ attempt :: r.2)

def max_retries : ℕ := 3

/-- `_call_gemini`: up to `max_retries = 3` attempts. -/
def call_gemini (op : ℕ → Except String α) : Except String α × List ℕ :=
  retryAux op 0 (max_retries - 1)

/-- `_parse_plan`: split the response on blank lines, keep the first 7
chunks, one `day_i` entry per chunk. -/
def parse_plan (gemini_response : String) : List (String × PlanEntry) :=
  ((gemini_response.splitOn "\n\n").take 7).enum.map
    (fun p => ("day_" ++ toString (p.1 + 1), PlanEntry.generated p.2.trim p.1))

/-- `_fallback_plan`: rule-based round-robin of the profile's subjects over
7 days, "General Study" when the subjects list is empty. -/
def fallback_plan (profile : StudentProfile) : List (String × PlanEntry) :=
  (List.range 7).map fun i =>
    ("day_" ++ toString (i + 1),
     PlanEntry.ruleBased
       (if h : profile.subjects.length = 0 then "General Study"
        else profile.subjects.get
          ⟨i % profile.subjects.length, Nat.mod_lt i (Nat.pos_of_ne_zero h)⟩)
       "2 hours" i)

/-- `create_study_plan`: call Gemini with retries and parse; any raised
error falls back to the rule-based plan. -/
def create_study_plan (op : ℕ → Except String String)
    (profile : StudentProfile) : List (String × PlanEntry) :=
  match (call_gemini op).1 with
  | .ok response => parse_plan response
  | .error _ => fallback_plan profile

/-- C7.  The retry wrapper sleeps 2^attempt seconds between attempts (1s
then 2s before attempts 2 and 3); after 3 consecutive failures it
re-raises the last error without substituting a value, and an operation
failing on attempts 1–2 that succeeds on attempt 3 yields the success. -/
theorem call_gemini_retry (op : ℕ → Except String α) (e0 e1 : String)
    (h0 : op 0 = .error e0) (h1 : op 1 = .error e1) :
    (∀ v, op 2 = .ok v → call_gemini op = (.ok v, [1, 2])) ∧
    (∀ e2, op 2 = .error e2 → call_gemini op = (.error e2, [1, 2])) := by
  constructor
  · intro v hv
    simp [call_gemini, max_retries, retryAux, h0, h1, hv]
  · intro e2 he
    simp [call_gemini, max_retries, retryAux, h0, h1, he]

/-- Witness for C7: the theorem applied to a concrete operation failing
twice then succeeding. -/
theorem call_gemini_retry_witness :
    call_gemini (fun n => if n < 2 then Except.error "boom" else Except.ok 42)
      = (Except.ok 42, [1, 2]) :=
  (call_gemini_retry (fun n => if n < 2 then Except.error "boom" else Except.ok 42)
      "boom" "boom" rfl rfl).1 42 rfl

/-- C10.  The rule-based fallback plan always has exactly the seven keys
day_1 … day_7 (so it never errors), and with an empty subjects list the
guarded round-robin indexing assigns "General Study" to every day. -/
theorem fallback_plan_shape (profile : StudentProfile) :
    (fallback_plan profile).length = 7 ∧
    (fallback_plan profile).map Prod.fst
      = ["day_1", "day_2", "day_3", "day_4", "day_5", "day_6", "day_7"] ∧
    (profile.subjects = [] →
      (fallback_plan profile).map
          (fun p => match p.2 with
            | PlanEntry.ruleBased s _ _ => s
            | PlanEntry.generated _ _ => "")
        = List.replicate 7 "General Study") := by
  refine ⟨by simp [fallback_plan], rfl, ?_⟩
  intro h
  simp [fallback_plan, h]
  rfl

/-- Witness for C10: the theorem applied at a concrete profile with no
subjects. -/
theorem fallback_plan_shape_witness :
    (fallback_plan ⟨"S", 10, [], [], 2⟩).map Prod.fst
      = ["day_1", "day_2", "day_3", "day_4", "day_5", "day_6", "day_7"] ∧
    (fallback_plan ⟨"S", 10, [], [], 2⟩).map
        (fun p => match p.2 with
          | PlanEntry.ruleBased s _ _ => s
          | PlanEntry.generated _ _ => "")
      = List.replicate 7 "General Study" :=
  ⟨(fallback_plan_shape ⟨"S", 10, [], [], 2⟩).2.1,
   (fallback_plan_shape ⟨"S", 10, [], [], 2⟩).2.2 rfl⟩

/-- C8.  When the generation call fails on every attempt, planning does
not fail: the result is exactly the deterministic rule-based fallback
plan, which is structurally complete (7 day slots). -/
theorem create_study_plan_fallback (profile : StudentProfile)
    (op : ℕ → Except String String)
    (hop : ∀ n, ∃ e, op n = Except.error e) :
    create_study_plan op profile = fallback_plan profile ∧
    (create_study_plan op profile).map Prod.fst
      = ["day_1", "day_2", "day_3", "day_4", "day_5", "day_6", "day_7"] ∧
    (create_study_plan op profile).length = 7 := by
  obtain ⟨e0, h0⟩ := hop 0
  obtain ⟨e1, h1⟩ := hop 1
  obtain ⟨e2, h2⟩ := hop 2
  have hmain : create_study_plan op profile = fallback_plan profile := by
    have hcg : (call_gemini op).1 = Except.error e2 := by
      simp [call_gemini, max_retries, retryAux, h0, h1, h2]
    unfold create_study_plan
    rw [hcg]
  refine ⟨hmain, ?_, ?_⟩
  · rw [hmain]
    exact (fallback_plan_shape profile).2.1
  · rw [hmain]
    exact (fallback_plan_shape profile).1

/-- Witness for C8: the theorem applied to an always-failing generator. -/
theorem create_study_plan_fallback_witness :
    create_study_plan (fun _ => Except.error "ExternalCallError")
        ⟨"S", 10, ["Physics", "Math"], [], 2⟩
      = fallback_plan ⟨"S", 10, ["Physics", "Math"], [], 2⟩ :=
  (create_study_plan_fallback ⟨"S", 10, ["Physics", "Math"], [], 2⟩
      (fun _ => Except.error "ExternalCallError")
      (fun _ => ⟨"ExternalCallError", rfl⟩)).1

/-! ## Insight generation (src/src/agents/data_processing.py `generate_insights`
and src/src/agents/progress_tracker.py `_generate_insights`)

`generate_insights` wraps its body in try/except and returns a generic
single-element list on any internal failure; `_generate_insights` has no
such handler.  "Internal failure" is only expressible over dynamically
typed values, so the inputs of these two functions are modelled as Python
values: dictionaries with arbitrary contents, where item access can raise
`KeyError` and comparisons can raise `TypeError`. -/

inductive PyVal where
  | num (q : ℚ)
  | str (s : String)
  | dict (entries : List (String × PyVal))
  | pynone

abbrev PyDict := List (String × PyVal)

def pyLookup : PyDict → String → Option PyVal
  | [], _ => Option.none
  | (k, v) :: rest, key => if k = key then some v else pyLookup rest key

/-- `d.get(key, default)`. -/
def pyGetD (d : PyDict) (key : String) (v : PyVal) : PyVal :=
  (pyLookup d key).getD v

/-- `key in d`. -/
def pyContains (d : PyDict) (key : String) : Bool :=
  (pyLookup d key).isSome

/-- `d[key]`, raising `KeyError` when the key is absent. -/
def pyGetItem (d : PyDict) (key : String) : Except String PyVal :=
  match pyLookup d key with
  | some v => .ok v
  | Option.none => .error ("KeyError: " ++ key)

/-- `q <= a`: `TypeError` unless `a` is a number. -/
def pyGE (a : PyVal) (q : ℚ) : Except String Bool :=
  match a with
  | .num x => .ok (decide (q ≤ x))
  | _ => .error "TypeError: unsupported comparison"

/-- `a > q`: `TypeError` unless `a` is a number. -/
def pyGT (a : PyVal) (q : ℚ) : Except String Bool :=
  match a with
  | .num x => .ok (decide (q < x))
  | _ => .error "TypeError: unsupported comparison"

/-- `a < q`: `TypeError` unless `a` is a number. -/
def pyLT (a : PyVal) (q : ℚ) : Except String Bool :=
  match a with
  | .num x => .ok (decide (x < q))
  | _ => .error "TypeError: unsupported comparison"

/-- `a == s` for a string literal `s` (never raises in Python). -/
def pvIsStr (v : PyVal) (s : String) : Bool :=
  match v with
  | .str s' => s' = s
  | _ => false

/-- f-string rendering of a dynamic value (the exact rendering is
irrelevant to the claims settled here). -/
def pyStr : PyVal → String
  | .num q => if q.den = 1 then toString q.num else toString q
  | .str s => s
  | .dict _ => "dict"
  | .pynone => "None"

/-- `.items()`: `AttributeError` unless the value is a dict. -/
def pyItems : PyVal → Except String (List (String × PyVal))
  | .dict entries => .ok entries
  | _ => .error "AttributeError: object has no attribute items"

/-- `[g['topic'] for g in gaps if g['severity'] == 'high']`. -/
def highGapTopics : List PyDict → Except String (List PyVal)
  | [] => pure []
  | g :: gs => do
    let sev ← pyGetItem g "severity"
    if pvIsStr sev "high" then
      let t ← pyGetItem g "topic"
      let rest ← highGapTopics gs
      pure (t :: rest)
    else
      highGapTopics gs

/-- `', '.join(xs)` requires every item to be a string. -/
def pyJoin : List PyVal → Except String (List String)
  | [] => pure []
  | .str s :: vs => do
    let rest ← pyJoin vs
    pure (s :: rest)
  | _ :: _ => .error "TypeError: sequence item expected str instance"

/-- `ProgressTrackerAgent._generate_insights`: no try/except anywhere, so
any internal failure escapes to the caller as the `Except.error` branch. -/
def pt_generate_insights (performance engagement : PyDict)
    (gaps : List PyDict) : Except String (List String) := do
  let mut insights : List String := []
  let avg_score := pyGetD performance "average_score" (PyVal.num 0)
  if ← pyGE avg_score 80 then
    insights := insights ++
      ["Excellent performance! Average score: " ++ pyStr avg_score ++ "%"]
  else if ← pyGE avg_score 60 then
    insights := insights ++
      ["Good progress, but room for improvement. Average score: "
        ++ pyStr avg_score ++ "%"]
  else
    insights := insights ++
      ["Performance needs attention. Average score: " ++ pyStr avg_score ++ "%"]
  let improvement := pyGetD performance "improvement_rate" (PyVal.num 0)
  if ← pyGT improvement 10 then
    insights := insights ++
      ["Great improvement trend! +" ++ pyStr improvement ++ "% from early attempts"]
  else if ← pyLT improvement (-10) then
    insights := insights ++ ["Performance declining. Consider reviewing fundamentals."]
  let consistency := pyGetD engagement "consistency_score" (PyVal.num 0)
  if ← pyGE consistency 70 then
    insights := insights ++
      ["Excellent study consistency! Score: " ++ pyStr consistency ++ "/100"]
  else if ← pyLT consistency 40 then
    insights := insights ++ ["Study consistency needs improvement. Try daily sessions."]
  if gaps.isEmpty then
    insights := insights ++ ["No major learning gaps identified. Keep up the good work!"]
  else
    let high_priority_gaps ← highGapTopics gaps
    if high_priority_gaps.isEmpty = false then
      let names ← pyJoin (high_priority_gaps.take 3)
      insights := insights ++
        ["High priority topics: " ++ String.intercalate ", " names]
  pure insights

/-- `[s for s, score in subject_perf.items() if score < 65]`. -/
def weakSubjects : List (String × PyVal) → Except String (List String)
  | [] => pure []
  | (s, score) :: rest => do
    if ← pyLT score 65 then
      let r ← weakSubjects rest
      pure (s :: r)
    else
      weakSubjects rest

/-- The try-block body of `DataProcessingAgent.generate_insights`. -/
def dp_generate_insights_body (analysis : PyDict) : Except String (List String) := do
  let mut insights : List String := []
  if pyContains analysis "average_session_length" then
    let avg_length ← pyGetItem analysis "average_session_length"
    if ← pyLT avg_length 25 then
      insights := insights ++ ["Consider longer study sessions for better retention."]
    else if ← pyGT avg_length 90 then
      insights := insights ++ ["Take breaks to avoid fatigue during long sessions."]
  if pyContains analysis "average_score" then
    let avg_score ← pyGetItem analysis "average_score"
    if ← pyLT avg_score 60 then
      insights := insights ++ ["Focus on foundational concepts to improve scores."]
    else if ← pyGT avg_score 85 then
      insights := insights ++ ["Great performance! Consider advanced topics."]
  if pyContains analysis "subject_performance" then
    let subject_perf ← pyGetItem analysis "subject_performance"
    let pairs ← pyItems subject_perf
    let weak ← weakSubjects pairs
    if weak.isEmpty = false then
      insights := insights ++ ["Need improvement in: " ++ String.intercalate ", " weak]
  pure insights

def unableMsg : String := "Unable to generate insights at this time."

/-- `DataProcessingAgent.generate_insights`: the try/except wrapper around
the body, degrading any internal failure to the generic message. -/
def dp_generate_insights (analysis : PyDict) : List String :=
  match dp_generate_insights_body analysis with
  | .ok l => l
  | .error _ => [unableMsg]

/-- C9 counterexample.  `_generate_insights` in progress_tracker.py has no
try/except: on a gap record without a "severity" key the internal KeyError
propagates to the caller instead of any single-element generic message. -/
theorem pt_generate_insights_cex :
    pt_generate_insights [] [] [[]] = Except.error "KeyError: severity" ∧
    pt_generate_insights [] [] [[]] ≠ Except.ok [unableMsg] := by
  constructor
  · rfl
  · intro h
    cases (rfl : pt_generate_insights [] [] [[]]
        = Except.error "KeyError: severity") ▸ h

/-- C9 (amended).  `generate_insights` in data_processing.py never lets an
internal failure escape: when its body fails it returns the single-element
generic "unable to generate insights" message, and when the body succeeds
it returns the body's list unchanged. -/
theorem dp_generate_insights_never_raises (analysis : PyDict) :
    (∀ l, dp_generate_insights_body analysis = .ok l →
        dp_generate_insights analysis = l) ∧
    (∀ e, dp_generate_insights_body analysis = .error e →
        dp_generate_insights analysis = [unableMsg]) := by
  unfold dp_generate_insights
  constructor
  · intro l hl
    rw [hl]
  · intro e he
    rw [he]

/-- Witness for C9: the theorem applied at an analysis dictionary whose
session-length field is a string, making the internal comparison raise. -/
theorem dp_generate_insights_never_raises_witness :
    dp_generate_insights [("average_session_length", PyVal.str "soon")]
      = [unableMsg] :=
  (dp_generate_insights_never_raises
      [("average_session_length", PyVal.str "soon")]).2
    "TypeError: unsupported comparison" rfl

end StudyCoach
